import Mathlib

/-!
Verification of the UAV-EPOH authentication and ledger system (shallow embedding).

The embedding models `GCS_LeaderNode.py` (hash engine `EPOH_Core`, authentication
state machine and pool/assembler `LeaderNode`) and `varify_chain.py` (`hash_block`,
`is_valid_chain`).  SHA-256 is implemented concretely over `Nat` words (mod 2^32).
Wall-clock time (`time.time()` / `time.time()*1000`) is modelled by an explicit
stream of natural numbers consumed one value per clock read; block and event
timestamps are therefore naturals (the whole-second subdomain of the float
timestamps, on which comparison and serialization agree with the Python code).
Strings are ASCII, for which Python's UTF-8 encoding is byte-per-character.
-/

set_option maxRecDepth 100000

namespace EPOH

/-! ## SHA-256 over `Nat` (words are naturals reduced mod 2^32) -/

def M32 : Nat := 4294967296

def rotr (k n : Nat) : Nat :=
  ((n >>> k) ||| (n <<< (32 - k))) % M32

def bsig0 (x : Nat) : Nat := (rotr 2 x) ^^^ (rotr 13 x) ^^^ (rotr 22 x)

def bsig1 (x : Nat) : Nat := (rotr 6 x) ^^^ (rotr 11 x) ^^^ (rotr 25 x)

def ssig0 (x : Nat) : Nat := (rotr 7 x) ^^^ (rotr 18 x) ^^^ (x >>> 3)

def ssig1 (x : Nat) : Nat := (rotr 17 x) ^^^ (rotr 19 x) ^^^ (x >>> 10)

def chf (x y z : Nat) : Nat := (x &&& y) ^^^ ((x ^^^ 4294967295) &&& z)

def majf (x y z : Nat) : Nat := (x &&& y) ^^^ (x &&& z) ^^^ (y &&& z)

def K256 : List Nat :=
  [1116352408, 1899447441, 3049323471, 3921009573, 961987163, 1508970993,
   2453635748, 2870763221, 3624381080, 310598401, 607225278, 1426881987,
   1925078388, 2162078206, 2614888103, 3248222580, 3835390401, 4022224774,
   264347078, 604807628, 770255983, 1249150122, 1555081692, 1996064986,
   2554220882, 2821834349, 2952996808, 3210313671, 3336571891, 3584528711,
   113926993, 338241895, 666307205, 773529912, 1294757372, 1396182291,
   1695183700, 1986661051, 2177026350, 2456956037, 2730485921, 2820302411,
   3259730800, 3345764771, 3516065817, 3600352804, 4094571909, 275423344,
   430227734, 506948616, 659060556, 883997877, 958139571, 1322822218,
   1537002063, 1747873779, 1955562222, 2024104815, 2227730452, 2361852424,
   2428436474, 2756734187, 3204031479, 3329325298]

def H256 : List Nat :=
  [1779033703, 3144134277, 1013904242, 2773480762, 1359893119, 2600822924,
   528734635, 1541459225]

/-- Big-endian byte representation of `n` in exactly `k` bytes. -/
def bytesBE : Nat → Nat → List Nat
  | 0, _ => []
  | k + 1, n => bytesBE k (n / 256) ++ [n % 256]

/-- SHA-256 padding: append 0x80, zero bytes, and the 64-bit big-endian bit length. -/
def padBytes (msg : List Nat) : List Nat :=
  let padZeros := (64 - ((msg.length + 9) % 64)) % 64
  msg ++ [128] ++ List.replicate padZeros 0 ++ bytesBE 8 (msg.length * 8)

/-- Group a byte list into big-endian 32-bit words. -/
def wordsOf : List Nat → List Nat
  | b0 :: b1 :: b2 :: b3 :: rest =>
      (b0 * 16777216 + b1 * 65536 + b2 * 256 + b3) :: wordsOf rest
  | _ => []

/-- One message-schedule extension step: append word `w[n-16]+σ0(w[n-15])+w[n-7]+σ1(w[n-2])`. -/
def schedStep (w : List Nat) : List Nat :=
  let n := w.length
  w ++ [(ssig1 (w.getD (n - 2) 0) + w.getD (n - 7) 0 +
         ssig0 (w.getD (n - 15) 0) + w.getD (n - 16) 0) % M32]

def sched : Nat → List Nat → List Nat
  | 0, w => w
  | k + 1, w => sched k (schedStep w)

/-- One SHA-256 compression round on the 8-word working state. -/
def compressStep (kw : Nat × Nat) (st : List Nat) : List Nat :=
  match st with
  | [a, b, c, d, e, f, g, h] =>
      let t1 := (h + bsig1 e + chf e f g + kw.1 + kw.2) % M32
      let t2 := (bsig0 a + majf a b c) % M32
      [(t1 + t2) % M32, a, b, c, (d + t1) % M32, e, f, g]
  | _ => st

def compressRounds : List (Nat × Nat) → List Nat → List Nat
  | [], st => st
  | p :: ps, st => compressRounds ps (compressStep p st)

/-- Process one 64-byte chunk (given as its first 16 words). -/
def processBlock (h : List Nat) (blockWords : List Nat) : List Nat :=
  let w := sched 48 blockWords
  let st := compressRounds (K256.zip w) h
  (h.zip st).map (fun p => (p.1 + p.2) % M32)

def processChunks : Nat → List Nat → List Nat → List Nat
  | 0, h, _ => h
  | k + 1, h, bytes => processChunks k (processBlock h (wordsOf (bytes.take 64))) (bytes.drop 64)

def hexChar (n : Nat) : Char := if n < 10 then Char.ofNat (48 + n) else Char.ofNat (87 + n)

/-- Lowercase hex of a 32-bit word, 8 digits, most significant first. -/
def hexWord (n : Nat) : List Char :=
  [hexChar ((n >>> 28) &&& 15), hexChar ((n >>> 24) &&& 15), hexChar ((n >>> 20) &&& 15),
   hexChar ((n >>> 16) &&& 15), hexChar ((n >>> 12) &&& 15), hexChar ((n >>> 8) &&& 15),
   hexChar ((n >>> 4) &&& 15), hexChar (n &&& 15)]

/-- SHA-256 of a byte list, as the usual 64-character lowercase hex digest. -/
def sha256Bytes (msg : List Nat) : String :=
  let padded := padBytes msg
  let hs := processChunks (padded.length / 64) H256 padded
  String.mk ((hs.map hexWord).flatten)

/-- Bytes of an ASCII string (UTF-8 encoding is byte-per-character on ASCII). -/
def strBytes (s : String) : List Nat := s.data.map Char.toNat

/-- `hashlib.sha256(s.encode('utf-8')).hexdigest()` for ASCII `s`. -/
def sha256hex (s : String) : String := sha256Bytes (strBytes s)

/-- Python string slicing `s[:n]` (by code points). -/
def strTake (s : String) (n : Nat) : String := String.mk (s.data.take n)

/-! ## Data model: transactions, event-log entries, blocks

Transactions are the closed set of dicts the leader ever constructs:
the genesis marker `{'tx_id': 'GENESIS_TX', 'data': 'System Initialized'}`,
the auth-success dict built in `handle_uav_request`, and the telemetry dict
(whose `data` payload is modelled as a JSON-string payload). -/

inductive Tx where
  | genesisTx (tx_id : String) (data : String)
  | authSuccessTx (tx_id : String) (uav_supi : String) (session_key_sim : String) (auth_rand : Nat)
  | telemetryTx (tx_id : String) (uav_supi : String) (data : String)
deriving DecidableEq, Repr

/-- `tx.get('tx_id')`. -/
def Tx.txId : Tx → String
  | .genesisTx i _ => i
  | .authSuccessTx i _ _ _ => i
  | .telemetryTx i _ _ => i

/-- Event-log entries: the genesis `{'event_type': 'CHAIN_START'}` marker, and one
`TRANSACTION_EMBEDDED` entry per embedded transaction. -/
inductive EventEntry where
  | chainStart
  | embedded (timestamp : Nat) (hash_at_event : String) (tx_id : String)
deriving DecidableEq, Repr

structure Block where
  index : Nat
  timestamp : Nat
  previous_hash : String
  event_log : List EventEntry
  transactions : List Tx
  current_hash : String
deriving DecidableEq, Repr

def defaultBlock : Block :=
  { index := 0, timestamp := 0, previous_hash := "", event_log := [],
    transactions := [], current_hash := "" }

/-! ## `json.dumps(..., sort_keys=True)` for the model's value shapes

Python's default rendering: `", "` between items, `": "` after keys, keys in
sorted order (the orders below are the sorted key orders of each dict shape).
Model strings are ASCII without characters needing JSON escaping, on which
escaping is the identity.  Naturals render as Python ints; timestamps (whole-
second floats) render as `<n>.0`. -/

def jsonStr (s : String) : String := "\"" ++ s ++ "\""

def jObj (fields : List String) : String :=
  "\x7b" ++ String.intercalate ", " fields ++ "\x7d"

def jArr (items : List String) : String :=
  "[" ++ String.intercalate ", " items ++ "]"

def jField (key val : String) : String := jsonStr key ++ ": " ++ val

/-- Python `repr(float(t))` for a whole-second timestamp. -/
def serTime (t : Nat) : String := toString t ++ ".0"

/-- `json.dumps(tx, sort_keys=True)`; keys of each dict shape in sorted order. -/
def serTx : Tx → String
  | .genesisTx i d => jObj [jField "data" (jsonStr d), jField "tx_id" (jsonStr i)]
  | .authSuccessTx i supi key rand =>
      jObj [jField "auth_rand" (toString rand), jField "session_key_sim" (jsonStr key),
            jField "status" (jsonStr "AUTHENTICATED"), jField "tx_id" (jsonStr i),
            jField "uav_supi" (jsonStr supi)]
  | .telemetryTx i supi d =>
      jObj [jField "data" (jsonStr d), jField "tx_id" (jsonStr i),
            jField "uav_supi" (jsonStr supi)]

def serEvent : EventEntry → String
  | .chainStart => jObj [jField "event_type" (jsonStr "CHAIN_START")]
  | .embedded t h i =>
      jObj [jField "event_type" (jsonStr "TRANSACTION_EMBEDDED"),
            jField "hash_at_event" (jsonStr h), jField "timestamp" (serTime t),
            jField "tx_id" (jsonStr i)]

/-- `json.dumps(block-minus-current_hash, sort_keys=True)`: the serialization that
`varify_chain.hash_block` feeds to SHA-256 (`current_hash` removed, keys sorted). -/
def serBlockNoHash (b : Block) : String :=
  jObj [jField "event_log" (jArr (b.event_log.map serEvent)),
        jField "index" (toString b.index),
        jField "previous_hash" (jsonStr b.previous_hash),
        jField "timestamp" (serTime b.timestamp),
        jField "transactions" (jArr (b.transactions.map serTx))]

/-- `varify_chain.hash_block`: SHA-256 of the sorted-key JSON serialization of the
block with its `current_hash` field removed. -/
def hash_block (b : Block) : String := sha256hex (serBlockNoHash b)

theorem sha256_empty_vector :
    sha256hex "" = "e3b0c44298fc1c149afbf4c8996fb92427ae41e4649b934ca495991b7852b855" := by
  decide

theorem sha256_abc_vector :
    sha256hex "abc" = "ba7816bf8f01cfea414140de5dae2223b00361a396177a9cb410ff61f20015ad" := by
  decide

/-! ## Clock stream

Every `time.time()` (or `time.time()*1000`) read pops one value off an explicit
stream of naturals, so all wall-clock inputs are explicit model inputs. -/

/-- Value of the next clock read. -/
def tickT (clk : List Nat) : Nat := clk.headD 0

/-- Remaining stream after one clock read. -/
def tickR (clk : List Nat) : List Nat := clk.tail

/-! ## `EPOH_Core`: the sequential hash engine -/

structure EPOH_Core where
  difficulty : Nat
  latest_hash : String
  sequence_count : Nat
deriving DecidableEq, Repr

/-- `EPOH_Core.generate_sequential_hash`: digest := SHA-256(digest), step counter += 1. -/
def EPOH_Core.generate_sequential_hash (e : EPOH_Core) : EPOH_Core :=
  { e with latest_hash := sha256hex e.latest_hash, sequence_count := e.sequence_count + 1 }

/-- `EPOH_Core.embed_transaction`: digest := SHA-256(digest ‖ sorted-key JSON of the
payload), step counter += 1; the returned wall-clock time is the popped clock value. -/
def EPOH_Core.embed_transaction (e : EPOH_Core) (payload : Tx) : EPOH_Core :=
  { e with latest_hash := sha256hex (e.latest_hash ++ serTx payload),
           sequence_count := e.sequence_count + 1 }

/-- The `for _ in range(difficulty)` advance loop in `create_block`. -/
def EPOH_Core.advanceN : Nat → EPOH_Core → EPOH_Core
  | 0, e => e
  | k + 1, e => EPOH_Core.advanceN k e.generate_sequential_hash

/-- The per-transaction loop of `create_block`: for each transaction, `difficulty`
advances then one embedding, recording one event-log entry per embedding. -/
def buildEvents (e : EPOH_Core) : List Tx → List Nat → List EventEntry × EPOH_Core × List Nat
  | [], clk => ([], e, clk)
  | tx :: rest, clk =>
      let e1 := EPOH_Core.advanceN e.difficulty e
      let e2 := e1.embed_transaction tx
      let tx_time := tickT clk
      let tail := buildEvents e2 rest (tickR clk)
      (EventEntry.embedded tx_time e2.latest_hash tx.txId :: tail.1, tail.2)

/-- `EPOH_Core.create_block`: resets the digest to `previous_hash` and the step
counter to 0, embeds the batch, then finalizes the block dict.  Note the source
assigns `index = current_chain_length + 1` and stamps the block with a fresh
`time.time()` read; `current_hash` is the final engine digest. -/
def EPOH_Core.create_block (e : EPOH_Core) (transactions : List Tx) (previous_hash : String)
    (current_chain_length : Nat) (clk : List Nat) : Block × EPOH_Core × List Nat :=
  let e0 : EPOH_Core := { e with latest_hash := previous_hash, sequence_count := 0 }
  let built := buildEvents e0 transactions clk
  let clk1 := built.2.2
  ({ index := current_chain_length + 1,
     timestamp := tickT clk1,
     previous_hash := previous_hash,
     event_log := built.1,
     transactions := transactions,
     current_hash := built.2.1.latest_hash },
   built.2.1, tickR clk1)

/-! ## Identity registry and authentication-vector derivations -/

/-- The pre-registered `UAV_DB` mapping (UAV ID ↦ long-term key). -/
def UAV_DB : List (String × String) :=
  [("UAV_A1", "K_LongTerm_A1"), ("UAV_B2", "K_LongTerm_B2")]

def dbGet (supi : String) : Option String :=
  (UAV_DB.find? (fun p => p.1 == supi)).map (fun p => p.2)

/-- `calculate_session_key_simulated`: `KTx = sha256(K ‖ str(rand))[:16]`. -/
def calculate_session_key_simulated (long_term_key : String) (rand : Nat) : String :=
  strTake (sha256hex (long_term_key ++ toString rand)) 16

/-- `AUTN = sha256(K ‖ SUPI ‖ str(rand))`. -/
def autnOf (long_term_key uav_supi : String) (rand : Nat) : String :=
  sha256hex (long_term_key ++ uav_supi ++ toString rand)

/-- `XRES* = sha256(K ‖ str(rand) ‖ 'Expected')[:10]`. -/
def xresOf (long_term_key : String) (rand : Nat) : String :=
  strTake (sha256hex (long_term_key ++ toString rand ++ "Expected")) 10

/-- `generate_auth_vector_simulated`: `rand` is the popped millisecond clock value
(`int(time.time()*1000)`); returns `(rand, AUTN, XRES*, KTx)`. -/
def generate_auth_vector_simulated (uav_supi long_term_key : String) (nowMs : Nat) :
    Nat × String × String × String :=
  (nowMs, autnOf long_term_key uav_supi nowMs, xresOf long_term_key nowMs,
   calculate_session_key_simulated long_term_key nowMs)

/-! ## The leader node: pending challenges, pool, chain -/

structure Challenge where
  xres_star : String
  ktx_sim : String
  rand : Nat
  timestamp : Nat
deriving DecidableEq, Repr

def defaultChallenge : Challenge := { xres_star := "", ktx_sim := "", rand := 0, timestamp := 0 }

/-- `d.get(k)` on the pending-challenge dict (modelled as an association list). -/
def dictGet (d : List (String × Challenge)) (k : String) : Option Challenge :=
  (d.find? (fun p => p.1 == k)).map (fun p => p.2)

/-- `d[k] = v`: overwrite or insert. -/
def dictSet (d : List (String × Challenge)) (k : String) (v : Challenge) :
    List (String × Challenge) :=
  d.filter (fun p => p.1 != k) ++ [(k, v)]

/-- `del d[k]`. -/
def dictDel (d : List (String × Challenge)) (k : String) : List (String × Challenge) :=
  d.filter (fun p => p.1 != k)

structure LeaderNode where
  chain : List Block
  transaction_pool : List Tx
  pending_auth_challenges : List (String × Challenge)
  epoh : EPOH_Core
deriving DecidableEq, Repr

/-- `LeaderNode.mine_block`: no-op on an empty pool; otherwise builds a block from
the whole pool with `previous_hash` the last block's `current_hash` and
`current_chain_length = len(chain)`, appends it, then clears the pool. -/
def LeaderNode.mine_block (s : LeaderNode) (clk : List Nat) : LeaderNode × List Nat :=
  if s.transaction_pool.isEmpty then (s, clk)
  else
    let last_hash := (s.chain.getLastD defaultBlock).current_hash
    let made := s.epoh.create_block s.transaction_pool last_hash s.chain.length clk
    ({ s with chain := s.chain ++ [made.1], epoh := made.2.1, transaction_pool := [] },
     made.2.2)

/-- A deserialized request dict: the fields `handle_uav_request` reads via
`request.get(...)`, plus the `session_key` field the client sends with telemetry
(never read by the handler). -/
structure Request where
  type : String
  uav_supi : String
  res_star : Option String
  data : String
  session_key : Option String
deriving DecidableEq, Repr

inductive Response where
  | AUTH_FAILURE (reason : String)
  | CHALLENGE_ISSUED (rand : Nat) (autn : String) (pk_node : String)
  | AUTH_SUCCESS (session_key : String)
  | TX_BLOCK_ACK (hash : String) (next_hash : String)
  | TX_RECEIVED (hash_seed : String)
  | ERROR_RESPONSE (reason : String)
deriving DecidableEq, Repr

/-- `LeaderNode.handle_uav_request`, branch for branch.  Clock reads: issuance pops
the millisecond value for `rand` then the challenge-record timestamp; a successful
response pops the tx-id second value then the mining clock reads; telemetry pops
the tx-id second value (then the mining reads when the batch threshold fires). -/
def LeaderNode.handle_uav_request (s : LeaderNode) (req : Request) (clk : List Nat) :
    Response × LeaderNode × List Nat :=
  if (dbGet req.uav_supi).isNone then
    (.AUTH_FAILURE "Unknown SUPI/UAV ID", s, clk)
  else
    let long_term_key := (dbGet req.uav_supi).getD ""
    if req.type = "AUTH_REQUEST_1" then
      let nowMs := tickT clk
      let av := generate_auth_vector_simulated req.uav_supi long_term_key nowMs
      let chalTime := tickT (tickR clk)
      let s1 := { s with pending_auth_challenges :=
        (dictSet s.pending_auth_challenges req.uav_supi
          { xres_star := av.2.2.1, ktx_sim := av.2.2.2, rand := av.1, timestamp := chalTime }) }
      (.CHALLENGE_ISSUED av.1 av.2.1 "NodePubKey_Sim", s1, tickR (tickR clk))
    else if req.type = "AUTH_RESPONSE_2" then
      let pc := dictGet s.pending_auth_challenges req.uav_supi
      if pc.isSome && (req.res_star == some (pc.getD defaultChallenge).xres_star) then
        let pending := pc.getD defaultChallenge
        let t := tickT clk
        let success_tx := Tx.authSuccessTx ("AUTH_SUCCESS_" ++ req.uav_supi ++ "_" ++ toString t)
          req.uav_supi pending.ktx_sim pending.rand
        let s1 := { s with transaction_pool := s.transaction_pool ++ [success_tx],
                           pending_auth_challenges :=
                             dictDel s.pending_auth_challenges req.uav_supi }
        let mined := s1.mine_block (tickR clk)
        (.AUTH_SUCCESS pending.ktx_sim, mined.1, mined.2)
      else
        (.AUTH_FAILURE "RES* mismatch or no pending challenge", s, clk)
    else if req.type = "TELEMETRY_TX" then
      let t := tickT clk
      let tx := Tx.telemetryTx ("TELEMETRY_" ++ req.uav_supi ++ "_" ++ toString t)
        req.uav_supi req.data
      let s1 := { s with transaction_pool := s.transaction_pool ++ [tx] }
      if s1.transaction_pool.length ≥ 3 then
        let mined := s1.mine_block (tickR clk)
        (.TX_BLOCK_ACK (strTake (mined.1.chain.getLastD defaultBlock).current_hash 10)
           (mined.1.chain.getLastD defaultBlock).current_hash, mined.1, mined.2)
      else
        (.TX_RECEIVED (strTake s1.epoh.latest_hash 10), s1, tickR clk)
    else
      (.ERROR_RESPONSE "Invalid Request Type", s, clk)

/-- The genesis marker transaction `{'tx_id': 'GENESIS_TX', 'data': 'System Initialized'}`. -/
def genesisTxn : Tx := Tx.genesisTx "GENESIS_TX" "System Initialized"

/-- `LeaderNode.create_genesis_block`: index-0 block with sentinel previous hash,
`CHAIN_START` event, the marker transaction, and `current_hash` produced by one
`generate_sequential_hash` call of the engine. -/
def LeaderNode.create_genesis_block (s : LeaderNode) (clk : List Nat) :
    LeaderNode × List Nat :=
  let epoh1 := s.epoh.generate_sequential_hash
  let genesis_block : Block :=
    { index := 0, timestamp := tickT clk, previous_hash := "0",
      event_log := [EventEntry.chainStart], transactions := [genesisTxn],
      current_hash := epoh1.latest_hash }
  ({ s with chain := s.chain ++ [genesis_block], epoh := epoh1 }, tickR clk)

/-- The all-zero initial digest `'0' * 64`. -/
def zeros64 : String := String.mk (List.replicate 64 '0')

/-- `LeaderNode.__init__` when no prior persisted ledger exists (the shipped entry
point deletes any existing ledger file first): empty chain, empty pool, empty
pending table, engine at difficulty 2 with the all-zero digest, then genesis. -/
def initNode (clk : List Nat) : LeaderNode :=
  (LeaderNode.create_genesis_block
    { chain := [], transaction_pool := [], pending_auth_challenges := [],
      epoh := { difficulty := 2, latest_hash := zeros64, sequence_count := 0 } } clk).1

/-! ## The chain verifier (`varify_chain.is_valid_chain`)

The result type carries what the Python returns and prints: pass, or the kind of
first failure with the offending index, and for a linkage failure the expected
(stored) and recalculated hashes. -/

inductive VerifyResult where
  | pass
  | emptyChain
  | badGenesis
  | badLink (i : Nat) (expected recalculated : String)
  | badChrono (i : Nat)
deriving DecidableEq, Repr

/-- The `for i in range(1, len(chain))` loop, fuel-indexed: at index `i` the linkage
check runs before the chronology check, and the loop returns at the first failure. -/
def checkLoop (chain : List Block) : Nat → Nat → VerifyResult
  | 0, _ => .pass
  | fuel + 1, i =>
      let current := chain.getD i defaultBlock
      let previous := chain.getD (i - 1) defaultBlock
      let recalculated := hash_block previous
      if current.previous_hash ≠ recalculated then .badLink i current.previous_hash recalculated
      else if current.timestamp ≤ previous.timestamp then .badChrono i
      else checkLoop chain fuel (i + 1)

/-- `is_valid_chain` on an in-memory chain (the file-loading wrapper is I/O): empty
chain fails, then the genesis sentinel check, then the indexed loop from 1. -/
def is_valid_chain (chain : List Block) : VerifyResult :=
  if chain.isEmpty then .emptyChain
  else if (chain.getD 0 defaultBlock).previous_hash ≠ "0" then .badGenesis
  else checkLoop chain (chain.length - 1) 1

/-! ## Reachability: states honestly built by the leader -/

/-- The state after servicing one request (the new node state of `handle_uav_request`). -/
def stepNode (s : LeaderNode) (req : Request) (clk : List Nat) : LeaderNode :=
  (s.handle_uav_request req clk).2.1

/-- States reachable from fresh initialization by servicing requests: the chains of
these states are exactly the honestly built ones (genesis, then blocks appended by
`mine_block`). -/
inductive Reachable : LeaderNode → Prop
  | init (clk : List Nat) : Reachable (initNode clk)
  | step (s : LeaderNode) (req : Request) (clk : List Nat) :
      Reachable s → Reachable (stepNode s req clk)

/-! ## Spec-side pure PoH hash (for the determinism claim) -/

/-- `k` successive `advance` steps on a bare digest. -/
def advanceHashN : Nat → String → String
  | 0, h => h
  | k + 1, h => advanceHashN k (sha256hex h)

/-- The resulting hash as a function solely of the previous hash, the sorted-key
serializations of the transactions in arrival order, and the advance count. -/
def pohHash (previous_hash : String) (serTxs : List String) (difficulty : Nat) : String :=
  serTxs.foldl (fun h stx => sha256hex (advanceHashN difficulty h ++ stx)) previous_hash

/-! ## Concrete demonstration run

Fresh node (genesis stamped at clock 1), then three `TELEMETRY_TX` requests from
the registered `UAV_A1`; the third reaches the batch threshold and mines, giving a
two-block honestly built chain. -/

def telemReq (supi payload : String) : Request :=
  { type := "TELEMETRY_TX", uav_supi := supi, res_star := none, data := payload,
    session_key := some "sk" }

def demoNode0 : LeaderNode := initNode [1]

def demoNode1 : LeaderNode := stepNode demoNode0 (telemReq "UAV_A1" "t1") [2]

def demoNode2 : LeaderNode := stepNode demoNode1 (telemReq "UAV_A1" "t2") [3]

def demoNode3 : LeaderNode := stepNode demoNode2 (telemReq "UAV_A1" "t3") [4, 5, 6, 7, 8]

/-! ## Dictionary lemmas -/

theorem filter_find?_ne (d : List (String × Challenge)) (k k' : String) (h : k' ≠ k) :
    List.find? (fun p => p.1 == k') (List.filter (fun p => p.1 != k) d) =
      List.find? (fun p => p.1 == k') d := by
  rw [List.find?_filter]
  congr 1
  funext a
  by_cases ha : a.1 = k'
  · simp [ha, bne_iff_ne]
    exact h
  · simp [ha]

theorem filter_find?_self (d : List (String × Challenge)) (k : String) :
    List.find? (fun p => p.1 == k) (List.filter (fun p => p.1 != k) d) = none := by
  rw [List.find?_filter]
  apply List.find?_eq_none.mpr
  intro x _
  by_cases hx : x.1 = k <;> simp [hx]

theorem dictGet_dictDel_self (d : List (String × Challenge)) (k : String) :
    dictGet (dictDel d k) k = none := by
  unfold dictGet dictDel
  rw [filter_find?_self]
  rfl

theorem dictGet_dictDel_ne (d : List (String × Challenge)) (k k' : String) (h : k' ≠ k) :
    dictGet (dictDel d k) k' = dictGet d k' := by
  unfold dictGet dictDel
  rw [filter_find?_ne d k k' h]

theorem dictGet_dictSet_ne (d : List (String × Challenge)) (k k' : String) (v : Challenge)
    (h : k' ≠ k) : dictGet (dictSet d k v) k' = dictGet d k' := by
  unfold dictGet dictSet
  rw [List.find?_append]
  have h2 : List.find? (fun p : String × Challenge => p.1 == k') [(k, v)] = none := by
    have : (k == k') = false := by simp [beq_iff_eq]; exact Ne.symm h
    simp [List.find?, this]
  rw [h2, Option.or_none, filter_find?_ne d k k' h]

theorem dictGet_dictSet_self (d : List (String × Challenge)) (k : String) (v : Challenge) :
    dictGet (dictSet d k v) k = some v := by
  unfold dictGet dictSet
  rw [List.find?_append, filter_find?_self, Option.none_or]
  simp [List.find?]

/-! ## Branch characterizations of `handle_uav_request` -/

/-- The telemetry transaction dict built by the telemetry branch. -/
def telemTxOf (req : Request) (t : Nat) : Tx :=
  Tx.telemetryTx ("TELEMETRY_" ++ req.uav_supi ++ "_" ++ toString t) req.uav_supi req.data

/-- The auth-success transaction dict built by the matching-response branch. -/
def authTxOf (req : Request) (ch : Challenge) (t : Nat) : Tx :=
  Tx.authSuccessTx ("AUTH_SUCCESS_" ++ req.uav_supi ++ "_" ++ toString t)
    req.uav_supi ch.ktx_sim ch.rand

theorem handle_unknown_id (s : LeaderNode) (req : Request) (clk : List Nat)
    (h : dbGet req.uav_supi = none) :
    s.handle_uav_request req clk = (.AUTH_FAILURE "Unknown SUPI/UAV ID", s, clk) := by
  simp [LeaderNode.handle_uav_request, h]

theorem handle_auth_request (s : LeaderNode) (req : Request) (clk : List Nat) (key : String)
    (hk : dbGet req.uav_supi = some key) (ht : req.type = "AUTH_REQUEST_1") :
    s.handle_uav_request req clk =
      (.CHALLENGE_ISSUED (tickT clk) (autnOf key req.uav_supi (tickT clk)) "NodePubKey_Sim",
       { s with pending_auth_challenges :=
          (dictSet s.pending_auth_challenges req.uav_supi
            { xres_star := xresOf key (tickT clk),
              ktx_sim := calculate_session_key_simulated key (tickT clk),
              rand := tickT clk, timestamp := tickT (tickR clk) }) },
       tickR (tickR clk)) := by
  simp [LeaderNode.handle_uav_request, hk, ht, generate_auth_vector_simulated]

theorem handle_auth_response_match (s : LeaderNode) (req : Request) (clk : List Nat)
    (key : String) (ch : Challenge)
    (hk : dbGet req.uav_supi = some key) (ht : req.type = "AUTH_RESPONSE_2")
    (hpc : dictGet s.pending_auth_challenges req.uav_supi = some ch)
    (hres : req.res_star = some ch.xres_star) :
    s.handle_uav_request req clk =
      (.AUTH_SUCCESS ch.ktx_sim,
       (LeaderNode.mine_block
         { s with transaction_pool := s.transaction_pool ++ [authTxOf req ch (tickT clk)],
                  pending_auth_challenges := dictDel s.pending_auth_challenges req.uav_supi }
         (tickR clk)).1,
       (LeaderNode.mine_block
         { s with transaction_pool := s.transaction_pool ++ [authTxOf req ch (tickT clk)],
                  pending_auth_challenges := dictDel s.pending_auth_challenges req.uav_supi }
         (tickR clk)).2) := by
  simp [LeaderNode.handle_uav_request, hk, ht, hpc, hres, authTxOf]

theorem handle_auth_response_miss (s : LeaderNode) (req : Request) (clk : List Nat)
    (key : String)
    (hk : dbGet req.uav_supi = some key) (ht : req.type = "AUTH_RESPONSE_2")
    (hmiss : ¬ ((dictGet s.pending_auth_challenges req.uav_supi).isSome = true ∧
      req.res_star = some ((dictGet s.pending_auth_challenges req.uav_supi).getD
        defaultChallenge).xres_star)) :
    s.handle_uav_request req clk =
      (.AUTH_FAILURE "RES* mismatch or no pending challenge", s, clk) := by
  have hcond : ((dictGet s.pending_auth_challenges req.uav_supi).isSome &&
      (req.res_star == some ((dictGet s.pending_auth_challenges req.uav_supi).getD
        defaultChallenge).xres_star)) = false := by
    rw [Bool.and_eq_false_iff]
    by_cases h1 : (dictGet s.pending_auth_challenges req.uav_supi).isSome = true
    · right
      rw [beq_eq_false_iff_ne]
      exact fun he => hmiss ⟨h1, he⟩
    · left
      simpa using h1
  simp [LeaderNode.handle_uav_request, hk, ht, hcond]

theorem handle_telemetry_small (s : LeaderNode) (req : Request) (clk : List Nat) (key : String)
    (hk : dbGet req.uav_supi = some key) (ht : req.type = "TELEMETRY_TX")
    (hlen : s.transaction_pool.length + 1 < 3) :
    s.handle_uav_request req clk =
      (.TX_RECEIVED (strTake s.epoh.latest_hash 10),
       { s with transaction_pool := s.transaction_pool ++ [telemTxOf req (tickT clk)] },
       tickR clk) := by
  simp [LeaderNode.handle_uav_request, hk, ht, telemTxOf]
  omega

theorem handle_telemetry_big (s : LeaderNode) (req : Request) (clk : List Nat) (key : String)
    (hk : dbGet req.uav_supi = some key) (ht : req.type = "TELEMETRY_TX")
    (hlen : s.transaction_pool.length + 1 ≥ 3) :
    s.handle_uav_request req clk =
      (.TX_BLOCK_ACK
         (strTake ((LeaderNode.mine_block
             { s with transaction_pool := s.transaction_pool ++ [telemTxOf req (tickT clk)] }
             (tickR clk)).1.chain.getLastD defaultBlock).current_hash 10)
         ((LeaderNode.mine_block
             { s with transaction_pool := s.transaction_pool ++ [telemTxOf req (tickT clk)] }
             (tickR clk)).1.chain.getLastD defaultBlock).current_hash,
       (LeaderNode.mine_block
         { s with transaction_pool := s.transaction_pool ++ [telemTxOf req (tickT clk)] }
         (tickR clk)).1,
       (LeaderNode.mine_block
         { s with transaction_pool := s.transaction_pool ++ [telemTxOf req (tickT clk)] }
         (tickR clk)).2) := by
  simp [LeaderNode.handle_uav_request, hk, ht, telemTxOf]
  omega

theorem handle_invalid_type (s : LeaderNode) (req : Request) (clk : List Nat) (key : String)
    (hk : dbGet req.uav_supi = some key) (h1 : req.type ≠ "AUTH_REQUEST_1")
    (h2 : req.type ≠ "AUTH_RESPONSE_2") (h3 : req.type ≠ "TELEMETRY_TX") :
    s.handle_uav_request req clk = (.ERROR_RESPONSE "Invalid Request Type", s, clk) := by
  simp [LeaderNode.handle_uav_request, hk, h1, h2, h3]

/-- `mine_block` on a nonempty pool appends exactly the block built by
`create_block` from the whole pool and clears the pool. -/
theorem mine_block_nonempty (s : LeaderNode) (clk : List Nat) (h : s.transaction_pool ≠ []) :
    s.mine_block clk =
      ({ s with
          chain := s.chain ++ [(s.epoh.create_block s.transaction_pool
            ((s.chain.getLastD defaultBlock).current_hash) s.chain.length clk).1],
          epoh := (s.epoh.create_block s.transaction_pool
            ((s.chain.getLastD defaultBlock).current_hash) s.chain.length clk).2.1,
          transaction_pool := [] },
       (s.epoh.create_block s.transaction_pool
         ((s.chain.getLastD defaultBlock).current_hash) s.chain.length clk).2.2) := by
  have hne : s.transaction_pool.isEmpty = false := by
    cases hp : s.transaction_pool with
    | nil => exact absurd hp h
    | cons a l => rfl
  simp [LeaderNode.mine_block, hne]

/-! ## `create_block` projections -/

theorem create_block_index (e : EPOH_Core) (txs : List Tx) (ph : String) (l : Nat)
    (clk : List Nat) : (e.create_block txs ph l clk).1.index = l + 1 := rfl

theorem create_block_transactions (e : EPOH_Core) (txs : List Tx) (ph : String) (l : Nat)
    (clk : List Nat) : (e.create_block txs ph l clk).1.transactions = txs := rfl

theorem create_block_previous_hash (e : EPOH_Core) (txs : List Tx) (ph : String) (l : Nat)
    (clk : List Nat) : (e.create_block txs ph l clk).1.previous_hash = ph := rfl

/-! ## Chain evolution under one request -/

/-- Servicing one request either leaves the chain unchanged or appends exactly one
block, whose `index` field is the pre-append chain length plus one (the source's
`current_chain_length + 1`). -/
theorem stepNode_chain_cases (s : LeaderNode) (req : Request) (clk : List Nat) :
    (stepNode s req clk).chain = s.chain ∨
      ∃ b, b.index = s.chain.length + 1 ∧ (stepNode s req clk).chain = s.chain ++ [b] := by
  unfold stepNode
  cases hdb : dbGet req.uav_supi with
  | none => rw [handle_unknown_id s req clk hdb]
            exact Or.inl rfl
  | some key =>
    by_cases ht1 : req.type = "AUTH_REQUEST_1"
    · rw [handle_auth_request s req clk key hdb ht1]
      exact Or.inl rfl
    · by_cases ht2 : req.type = "AUTH_RESPONSE_2"
      · by_cases hcond : ((dictGet s.pending_auth_challenges req.uav_supi).isSome = true ∧
          req.res_star = some ((dictGet s.pending_auth_challenges req.uav_supi).getD
            defaultChallenge).xres_star)
        · obtain ⟨h1, h2⟩ := hcond
          obtain ⟨ch, hch⟩ := Option.isSome_iff_exists.mp h1
          rw [hch] at h2
          simp only [Option.getD_some] at h2
          rw [handle_auth_response_match s req clk key ch hdb ht2 hch h2]
          right
          rw [mine_block_nonempty _ _ (by simp)]
          exact ⟨_, create_block_index _ _ _ _ _, rfl⟩
        · rw [handle_auth_response_miss s req clk key hdb ht2 hcond]
          exact Or.inl rfl
      · by_cases ht3 : req.type = "TELEMETRY_TX"
        · by_cases hlen : s.transaction_pool.length + 1 ≥ 3
          · rw [handle_telemetry_big s req clk key hdb ht3 hlen]
            right
            rw [mine_block_nonempty _ _ (by simp)]
            exact ⟨_, create_block_index _ _ _ _ _, rfl⟩
          · rw [handle_telemetry_small s req clk key hdb ht3 (by omega)]
            exact Or.inl rfl
        · rw [handle_invalid_type s req clk key hdb ht1 ht2 ht3]
          exact Or.inl rfl

/-- The index invariant the honest chains actually satisfy: genesis has index 0 and
every later position `i` holds a block whose `index` field is `i + 1`. -/
def chainIndexInv (c : List Block) : Prop :=
  1 ≤ c.length ∧ (c.getD 0 defaultBlock).index = 0 ∧
    ∀ i, 1 ≤ i → i < c.length → (c.getD i defaultBlock).index = i + 1

theorem reachable_chainIndexInv (s : LeaderNode) (h : Reachable s) : chainIndexInv s.chain := by
  induction h with
  | init clk =>
      refine ⟨by rfl, by rfl, ?_⟩
      intro i h1 h2
      simp only [initNode, LeaderNode.create_genesis_block] at h2
      simp at h2
      omega
  | step s req clk hr ih =>
      obtain ⟨hlen, h0, hrest⟩ := ih
      rcases stepNode_chain_cases s req clk with hsame | ⟨b, hb, happ⟩
      · rw [hsame]
        exact ⟨hlen, h0, hrest⟩
      · rw [happ]
        refine ⟨?_, ?_, ?_⟩
        · rw [List.length_append]
          omega
        · rw [List.getD_append _ _ _ 0 (by omega)]
          exact h0
        · intro i h1 h2
          rw [List.length_append, List.length_cons, List.length_nil] at h2
          by_cases hi : i < s.chain.length
          · rw [List.getD_append _ _ _ i hi]
            exact hrest i h1 hi
          · have hieq : i = s.chain.length := by omega
            rw [List.getD_append_right _ _ _ i (by omega), hieq]
            simpa using hb

/-! ## The resulting hash as a pure function (determinism of `create_block`) -/

theorem advanceN_difficulty (k : Nat) (e : EPOH_Core) :
    (EPOH_Core.advanceN k e).difficulty = e.difficulty := by
  induction k generalizing e with
  | zero => rfl
  | succ k ih =>
      have h := ih e.generate_sequential_hash
      simpa [EPOH_Core.advanceN, EPOH_Core.generate_sequential_hash] using h

theorem advanceN_latest (k : Nat) (e : EPOH_Core) :
    (EPOH_Core.advanceN k e).latest_hash = advanceHashN k e.latest_hash := by
  induction k generalizing e with
  | zero => rfl
  | succ k ih =>
      have h := ih e.generate_sequential_hash
      simpa [EPOH_Core.advanceN, advanceHashN, EPOH_Core.generate_sequential_hash] using h

theorem buildEvents_latest (txs : List Tx) (e : EPOH_Core) (clk : List Nat) :
    (buildEvents e txs clk).2.1.latest_hash =
        pohHash e.latest_hash (txs.map serTx) e.difficulty ∧
      (buildEvents e txs clk).2.1.difficulty = e.difficulty := by
  induction txs generalizing e clk with
  | nil => exact ⟨rfl, rfl⟩
  | cons tx rest ih =>
      have hstep := ih ((EPOH_Core.advanceN e.difficulty e).embed_transaction tx) (tickR clk)
      constructor
      · rw [show (buildEvents e (tx :: rest) clk).2.1 =
          (buildEvents ((EPOH_Core.advanceN e.difficulty e).embed_transaction tx) rest
            (tickR clk)).2.1 from rfl]
        rw [hstep.1]
        have hlat : ((EPOH_Core.advanceN e.difficulty e).embed_transaction tx).latest_hash =
            sha256hex (advanceHashN e.difficulty e.latest_hash ++ serTx tx) := by
          simp [EPOH_Core.embed_transaction, advanceN_latest]
        have hdif : ((EPOH_Core.advanceN e.difficulty e).embed_transaction tx).difficulty =
            e.difficulty := by
          simp [EPOH_Core.embed_transaction, advanceN_difficulty]
        rw [hlat, hdif]
        rfl
      · rw [show (buildEvents e (tx :: rest) clk).2.1 =
          (buildEvents ((EPOH_Core.advanceN e.difficulty e).embed_transaction tx) rest
            (tickR clk)).2.1 from rfl]
        rw [hstep.2]
        simp [EPOH_Core.embed_transaction, advanceN_difficulty]

theorem create_block_current_hash (e : EPOH_Core) (txs : List Tx) (ph : String) (l : Nat)
    (clk : List Nat) :
    (e.create_block txs ph l clk).1.current_hash = pohHash ph (txs.map serTx) e.difficulty := by
  have h := buildEvents_latest txs { e with latest_hash := ph, sequence_count := 0 } clk
  exact h.1

/-! ## Characterization of the verifier -/

/-- Condition (c) of the spec at index `i ≥ 1`: stored `previous_hash` differs from
the canonical hash of the predecessor. -/
def linkBad (c : List Block) (i : Nat) : Prop :=
  (c.getD i defaultBlock).previous_hash ≠ hash_block (c.getD (i - 1) defaultBlock)

/-- Condition (d) of the spec at index `i ≥ 1`: timestamp not strictly greater than
the predecessor's. -/
def chronoBad (c : List Block) (i : Nat) : Prop :=
  (c.getD i defaultBlock).timestamp ≤ (c.getD (i - 1) defaultBlock).timestamp

theorem checkLoop_pass_iff (c : List Block) (fuel : Nat) :
    ∀ i, checkLoop c fuel i = .pass ↔
      ∀ j, i ≤ j → j < i + fuel → ¬ linkBad c j ∧ ¬ chronoBad c j := by
  induction fuel with
  | zero =>
      intro i
      constructor
      · intro _ j h1 h2
        omega
      · intro _
        rfl
  | succ fuel ih =>
      intro i
      simp only [checkLoop]
      by_cases hl : (c.getD i defaultBlock).previous_hash ≠ hash_block (c.getD (i - 1) defaultBlock)
      · rw [if_pos hl]
        constructor
        · intro h
          exact absurd h (by simp)
        · intro h
          exact absurd hl (h i le_rfl (by omega)).1
      · rw [if_neg hl]
        by_cases hc : (c.getD i defaultBlock).timestamp ≤ (c.getD (i - 1) defaultBlock).timestamp
        · rw [if_pos hc]
          constructor
          · intro h
            exact absurd h (by simp)
          · intro h
            exact absurd hc (h i le_rfl (by omega)).2
        · rw [if_neg hc]
          rw [ih (i + 1)]
          constructor
          · intro h j h1 h2
            rcases Nat.eq_or_lt_of_le h1 with he | hlt
            · rw [← he]
              exact ⟨hl, hc⟩
            · exact h j hlt (by omega)
          · intro h j h1 h2
            exact h j (by omega) (by omega)

theorem checkLoop_badLink (c : List Block) (fuel : Nat) :
    ∀ i k e a, checkLoop c fuel i = .badLink k e a →
      i ≤ k ∧ k < i + fuel ∧ linkBad c k ∧
        e = (c.getD k defaultBlock).previous_hash ∧
        a = hash_block (c.getD (k - 1) defaultBlock) ∧
        ∀ j, i ≤ j → j < k → ¬ linkBad c j ∧ ¬ chronoBad c j := by
  induction fuel with
  | zero =>
      intro i k e a h
      exact absurd h (by simp [checkLoop])
  | succ fuel ih =>
      intro i k e a h
      simp only [checkLoop] at h
      by_cases hl : (c.getD i defaultBlock).previous_hash ≠ hash_block (c.getD (i - 1) defaultBlock)
      · rw [if_pos hl] at h
        injection h with hk he ha
        subst hk
        subst he
        subst ha
        refine ⟨le_rfl, by omega, hl, rfl, rfl, ?_⟩
        intro j h1 h2
        omega
      · rw [if_neg hl] at h
        by_cases hc : (c.getD i defaultBlock).timestamp ≤ (c.getD (i - 1) defaultBlock).timestamp
        · rw [if_pos hc] at h
          exact absurd h (by simp)
        · rw [if_neg hc] at h
          obtain ⟨g1, g2, g3, g4, g5, g6⟩ := ih (i + 1) k e a h
          refine ⟨by omega, by omega, g3, g4, g5, ?_⟩
          intro j h1 h2
          rcases Nat.eq_or_lt_of_le h1 with hje | hjlt
          · rw [← hje]
            exact ⟨hl, hc⟩
          · exact g6 j hjlt h2

theorem checkLoop_badChrono (c : List Block) (fuel : Nat) :
    ∀ i k, checkLoop c fuel i = .badChrono k →
      i ≤ k ∧ k < i + fuel ∧ chronoBad c k ∧ ¬ linkBad c k ∧
        ∀ j, i ≤ j → j < k → ¬ linkBad c j ∧ ¬ chronoBad c j := by
  induction fuel with
  | zero =>
      intro i k h
      exact absurd h (by simp [checkLoop])
  | succ fuel ih =>
      intro i k h
      simp only [checkLoop] at h
      by_cases hl : (c.getD i defaultBlock).previous_hash ≠ hash_block (c.getD (i - 1) defaultBlock)
      · rw [if_pos hl] at h
        exact absurd h (by simp)
      · rw [if_neg hl] at h
        by_cases hc : (c.getD i defaultBlock).timestamp ≤ (c.getD (i - 1) defaultBlock).timestamp
        · rw [if_pos hc] at h
          injection h with hk
          subst hk
          refine ⟨le_rfl, by omega, hc, hl, ?_⟩
          intro j h1 h2
          omega
        · rw [if_neg hc] at h
          obtain ⟨g1, g2, g3, g4, g5⟩ := ih (i + 1) k h
          refine ⟨by omega, by omega, g3, g4, ?_⟩
          intro j h1 h2
          rcases Nat.eq_or_lt_of_le h1 with hje | hjlt
          · rw [← hje]
            exact ⟨hl, hc⟩
          · exact g5 j hjlt h2

/-! ## Shared concrete facts -/

theorem reachable_demoNode3 : Reachable demoNode3 := by
  have h0 : Reachable demoNode0 := Reachable.init [1]
  have h1 : Reachable demoNode1 := Reachable.step demoNode0 (telemReq "UAV_A1" "t1") [2] h0
  have h2 : Reachable demoNode2 := Reachable.step demoNode1 (telemReq "UAV_A1" "t2") [3] h1
  exact Reachable.step demoNode2 (telemReq "UAV_A1" "t3") [4, 5, 6, 7, 8] h2

/-! ## Claim theorems -/

/-- C9: after initialization with no prior persisted chain, the chain is exactly one
block: index 0, previous hash the sentinel `'0'`, a single system-initialized marker
transaction, and resulting hash equal to the output of a single `advance()` step of
the hash engine, i.e. SHA-256 of the all-zero initial digest. -/
theorem genesis_initialization (clk : List Nat) :
    (initNode clk).chain =
      [{ index := 0, timestamp := tickT clk, previous_hash := "0",
         event_log := [EventEntry.chainStart], transactions := [genesisTxn],
         current_hash := sha256hex zeros64 }] ∧
    (initNode clk).chain.length = 1 ∧
    sha256hex zeros64 =
      (EPOH_Core.generate_sequential_hash
        { difficulty := 2, latest_hash := zeros64, sequence_count := 0 }).latest_hash :=
  ⟨rfl, rfl, rfl⟩

/-- C8: the resulting hash of `create_block` is a function solely of the previous
hash, the sorted-key JSON serializations of the transactions in arrival order, and
the advance count (difficulty); two invocations with the same transaction list,
previous hash and difficulty give the same `current_hash`, whatever the wall-clock
values and the rest of the engine state. -/
theorem create_block_hash_deterministic (e1 e2 : EPOH_Core) (txs : List Tx) (prev : String)
    (l1 l2 : Nat) (clk1 clk2 : List Nat) (hd : e1.difficulty = e2.difficulty) :
    (e1.create_block txs prev l1 clk1).1.current_hash =
        pohHash prev (txs.map serTx) e1.difficulty ∧
      (e1.create_block txs prev l1 clk1).1.current_hash =
        (e2.create_block txs prev l2 clk2).1.current_hash := by
  refine ⟨create_block_current_hash e1 txs prev l1 clk1, ?_⟩
  rw [create_block_current_hash, create_block_current_hash, hd]

theorem create_block_hash_deterministic_witness :
    (EPOH_Core.create_block { difficulty := 2, latest_hash := "seed", sequence_count := 0 }
        [] "p" 1 [1]).1.current_hash = pohHash "p" (([] : List Tx).map serTx) 2 ∧
      (EPOH_Core.create_block { difficulty := 2, latest_hash := "seed", sequence_count := 0 }
        [] "p" 1 [1]).1.current_hash =
      (EPOH_Core.create_block { difficulty := 2, latest_hash := "x", sequence_count := 5 }
        [] "p" 7 [9]).1.current_hash :=
  create_block_hash_deterministic
    { difficulty := 2, latest_hash := "seed", sequence_count := 0 }
    { difficulty := 2, latest_hash := "x", sequence_count := 5 } [] "p" 1 7 [1] [9] rfl

/-- C2 counterexample: on the honestly built two-block chain `demoNode3.chain`
(genesis plus one mined block), the block at position 1 carries index 2, not 1 —
`create_block` assigns `current_chain_length + 1`. -/
theorem mined_block_index_not_position : Reachable demoNode3 ∧
    demoNode3.chain.length = 2 ∧ (demoNode3.chain.getD 1 defaultBlock).index = 2 :=
  ⟨reachable_demoNode3, by decide⟩

/-- C2 (amended): on every honestly built chain the genesis block has index 0 and
the block at every position `i ≥ 1` has index `i + 1` (the source's
`current_chain_length + 1`), so indices are strictly increasing but skip 1. -/
theorem honest_chain_index_invariant (s : LeaderNode) (h : Reachable s) :
    chainIndexInv s.chain :=
  reachable_chainIndexInv s h

theorem honest_chain_index_invariant_witness : chainIndexInv demoNode0.chain :=
  honest_chain_index_invariant demoNode0 (Reachable.init [1])

/-- C1: on the honestly built two-block chain `demoNode3.chain` (genesis, then a
block appended by `mine_block`), the stored `previous_hash` of block 1 is the
predecessor's PoH digest (`current_hash`), which differs from the verifier's
canonical hash of the predecessor, so `is_valid_chain` fails at index 1 with the
stored and recalculated hashes — honest chains of length ≥ 2 never verify. -/
theorem honest_chain_fails_verifier : Reachable demoNode3 ∧
    demoNode3.chain.length = 2 ∧
    (demoNode3.chain.getD 1 defaultBlock).previous_hash =
      (demoNode3.chain.getD 0 defaultBlock).current_hash ∧
    (demoNode3.chain.getD 1 defaultBlock).previous_hash ≠
      hash_block (demoNode3.chain.getD 0 defaultBlock) ∧
    is_valid_chain demoNode3.chain =
      VerifyResult.badLink 1
        "60e05bd1b195af2f94112fa7197a5c88289058840ce7c6df9693756bc6250f55"
        "e5a631cbfee1e5d03b92fb84f3fa9ae970f898eb73c3bec6e138970c5138180b" :=
  ⟨reachable_demoNode3, by decide⟩

/-- C4 counterexample: a `TELEMETRY_TX` request whose identity is not in the
registry receives `AUTH_FAILURE`, a failure response. -/
theorem telemetry_unknown_id_failure :
    ((initNode [1]).handle_uav_request
      { type := "TELEMETRY_TX", uav_supi := "UAV_X9", res_star := none, data := "d",
        session_key := some "sk" } [9]).1 = Response.AUTH_FAILURE "Unknown SUPI/UAV ID" := by
  rw [handle_unknown_id _ _ _ (by decide)]

/-- C4 (amended): a `TELEMETRY_TX` request whose identity is in the registry always
receives `TX_RECEIVED` or `TX_BLOCK_ACK`, never a failure; one with an unregistered
identity receives `AUTH_FAILURE` (the registry check runs before the type dispatch).
The `s.chain ≠ []` hypothesis marks the region where the Python `chain[-1]` cannot
raise; the model totalizes it with a default. -/
theorem telemetry_response_shape (s : LeaderNode) (req : Request) (clk : List Nat)
    (ht : req.type = "TELEMETRY_TX") (hchain : s.chain ≠ []) :
    ((dbGet req.uav_supi).isSome →
      (∃ x, (s.handle_uav_request req clk).1 = Response.TX_RECEIVED x) ∨
      (∃ h n, (s.handle_uav_request req clk).1 = Response.TX_BLOCK_ACK h n)) ∧
    (dbGet req.uav_supi = none →
      (s.handle_uav_request req clk).1 = Response.AUTH_FAILURE "Unknown SUPI/UAV ID") := by
  constructor
  · intro hsome
    obtain ⟨key, hkey⟩ := Option.isSome_iff_exists.mp hsome
    by_cases hlen : s.transaction_pool.length + 1 ≥ 3
    · rw [handle_telemetry_big s req clk key hkey ht hlen]
      exact Or.inr ⟨_, _, rfl⟩
    · rw [handle_telemetry_small s req clk key hkey ht (by omega)]
      exact Or.inl ⟨_, rfl⟩
  · intro hnone
    rw [handle_unknown_id s req clk hnone]

theorem telemetry_response_shape_witness :
    ((dbGet (telemReq "UAV_A1" "w").uav_supi).isSome →
      (∃ x, (demoNode0.handle_uav_request (telemReq "UAV_A1" "w") [9]).1 =
        Response.TX_RECEIVED x) ∨
      (∃ h n, (demoNode0.handle_uav_request (telemReq "UAV_A1" "w") [9]).1 =
        Response.TX_BLOCK_ACK h n)) ∧
    (dbGet (telemReq "UAV_A1" "w").uav_supi = none →
      (demoNode0.handle_uav_request (telemReq "UAV_A1" "w") [9]).1 =
        Response.AUTH_FAILURE "Unknown SUPI/UAV ID") :=
  telemetry_response_shape demoNode0 (telemReq "UAV_A1" "w") [9] rfl (by decide)

/-- An `AUTH_RESPONSE_2` request carrying response value `r`. -/
def authResp (supi : String) (r : Option String) : Request :=
  { type := "AUTH_RESPONSE_2", uav_supi := supi, res_star := r, data := "",
    session_key := none }

/-- C3: from a state holding a pending challenge for a registered identity (so the
stored expected value and session key are the issuance derivations from the shared
secret and challenge), responding with `H(secret ‖ challenge ‖ "Expected")[:10]`
yields `AUTH_SUCCESS` with the derived session key, deletes the pending challenge,
and appends exactly one block; responding with the same derivation from any other
secret (whenever that derivation differs, as it does for the registry's keys)
yields `AUTH_FAILURE` and leaves the node state — hence the chain — unchanged. -/
theorem auth_response_correctness (s : LeaderNode) (supi key : String) (ch : Challenge)
    (clk clk2 : List Nat)
    (hk : dbGet supi = some key)
    (hpc : dictGet s.pending_auth_challenges supi = some ch)
    (hx : ch.xres_star = xresOf key ch.rand)
    (hs : ch.ktx_sim = calculate_session_key_simulated key ch.rand)
    (hchain : s.chain ≠ []) :
    ((s.handle_uav_request (authResp supi (some (xresOf key ch.rand))) clk).1 =
        Response.AUTH_SUCCESS (calculate_session_key_simulated key ch.rand) ∧
      dictGet (stepNode s (authResp supi (some (xresOf key ch.rand)))
        clk).pending_auth_challenges supi = none ∧
      (∃ b, (stepNode s (authResp supi (some (xresOf key ch.rand))) clk).chain =
        s.chain ++ [b])) ∧
    (∀ other, xresOf other ch.rand ≠ xresOf key ch.rand →
      (s.handle_uav_request (authResp supi (some (xresOf other ch.rand))) clk2).1 =
          Response.AUTH_FAILURE "RES* mismatch or no pending challenge" ∧
        stepNode s (authResp supi (some (xresOf other ch.rand))) clk2 = s) := by
  have hres : (authResp supi (some (xresOf key ch.rand))).res_star = some ch.xres_star := by
    simp [authResp, hx]
  constructor
  · have hmain := handle_auth_response_match s (authResp supi (some (xresOf key ch.rand)))
      clk key ch hk rfl hpc hres
    refine ⟨?_, ?_, ?_⟩
    · rw [hmain, hs]
    · unfold stepNode
      rw [hmain, mine_block_nonempty _ _ (by simp)]
      exact dictGet_dictDel_self _ _
    · unfold stepNode
      rw [hmain, mine_block_nonempty _ _ (by simp)]
      exact ⟨_, rfl⟩
  · intro other hne
    have hmiss := handle_auth_response_miss s (authResp supi (some (xresOf other ch.rand)))
      clk2 key hk rfl ?_
    · refine ⟨?_, ?_⟩
      · rw [hmiss]
      · unfold stepNode
        rw [hmiss]
    · intro hcontra
      simp only [authResp] at hcontra
      rw [hpc] at hcontra
      simp only [Option.getD_some] at hcontra
      have h2 := Option.some.inj hcontra.2
      rw [hx] at h2
      exact hne h2

/-- C5: a mismatched `AUTH_RESPONSE_2` returns `AUTH_FAILURE` and leaves the whole
node state (pending challenge, pool and chain) unchanged; the correctly-derived
response against the same outstanding challenge then still yields `AUTH_SUCCESS`;
and the pending entry for an identity survives every request that is neither a new
challenge issuance for that identity nor a matching response for it. -/
theorem failed_response_preserves_challenge (s : LeaderNode) (supi key r : String)
    (ch : Challenge) (clk1 clk2 : List Nat)
    (hk : dbGet supi = some key)
    (hpc : dictGet s.pending_auth_challenges supi = some ch)
    (hr : r ≠ ch.xres_star)
    (hchain : s.chain ≠ []) :
    ((s.handle_uav_request (authResp supi (some r)) clk1).1 =
        Response.AUTH_FAILURE "RES* mismatch or no pending challenge" ∧
      stepNode s (authResp supi (some r)) clk1 = s) ∧
    ((s.handle_uav_request (authResp supi (some ch.xres_star)) clk2).1 =
        Response.AUTH_SUCCESS ch.ktx_sim ∧
      dictGet (stepNode s (authResp supi (some ch.xres_star))
        clk2).pending_auth_challenges supi = none ∧
      (∃ b, (stepNode s (authResp supi (some ch.xres_star)) clk2).chain = s.chain ++ [b])) ∧
    (∀ req clk, ¬ (req.type = "AUTH_REQUEST_1" ∧ req.uav_supi = supi) →
      ¬ (req.type = "AUTH_RESPONSE_2" ∧ req.uav_supi = supi ∧
          req.res_star = some ch.xres_star) →
      dictGet (stepNode s req clk).pending_auth_challenges supi = some ch) := by
  refine ⟨?_, ?_, ?_⟩
  · have hmiss := handle_auth_response_miss s (authResp supi (some r)) clk1 key hk rfl ?_
    · exact ⟨by rw [hmiss], by unfold stepNode; rw [hmiss]⟩
    · intro hcontra
      simp only [authResp] at hcontra
      rw [hpc] at hcontra
      simp only [Option.getD_some] at hcontra
      exact hr (Option.some.inj hcontra.2)
  · have hmain := handle_auth_response_match s (authResp supi (some ch.xres_star))
      clk2 key ch hk rfl hpc rfl
    refine ⟨by rw [hmain], ?_, ?_⟩
    · unfold stepNode
      rw [hmain, mine_block_nonempty _ _ (by simp)]
      exact dictGet_dictDel_self _ _
    · unfold stepNode
      rw [hmain, mine_block_nonempty _ _ (by simp)]
      exact ⟨_, rfl⟩
  · intro req clk hni hnm
    unfold stepNode
    cases hdb : dbGet req.uav_supi with
    | none =>
        rw [handle_unknown_id s req clk hdb]
        exact hpc
    | some key2 =>
        by_cases ht1 : req.type = "AUTH_REQUEST_1"
        · have hne : req.uav_supi ≠ supi := fun he => hni ⟨ht1, he⟩
          rw [handle_auth_request s req clk key2 hdb ht1]
          simp only
          rw [dictGet_dictSet_ne _ _ _ _ (Ne.symm hne)]
          exact hpc
        · by_cases ht2 : req.type = "AUTH_RESPONSE_2"
          · by_cases hcond : ((dictGet s.pending_auth_challenges req.uav_supi).isSome = true ∧
              req.res_star = some ((dictGet s.pending_auth_challenges req.uav_supi).getD
                defaultChallenge).xres_star)
            · obtain ⟨h1, h2⟩ := hcond
              obtain ⟨ch2, hch2⟩ := Option.isSome_iff_exists.mp h1
              rw [hch2] at h2
              simp only [Option.getD_some] at h2
              have hne : req.uav_supi ≠ supi := by
                intro he
                rw [he, hpc] at hch2
                have : ch2 = ch := (Option.some.inj hch2).symm
                rw [this] at h2
                exact hnm ⟨ht2, he, h2⟩
              rw [handle_auth_response_match s req clk key2 ch2 hdb ht2 hch2 h2,
                mine_block_nonempty _ _ (by simp)]
              simp only
              rw [dictGet_dictDel_ne _ _ _ (Ne.symm hne)]
              exact hpc
            · rw [handle_auth_response_miss s req clk key2 hdb ht2 hcond]
              exact hpc
          · by_cases ht3 : req.type = "TELEMETRY_TX"
            · by_cases hlen : s.transaction_pool.length + 1 ≥ 3
              · rw [handle_telemetry_big s req clk key2 hdb ht3 hlen,
                  mine_block_nonempty _ _ (by simp)]
                exact hpc
              · rw [handle_telemetry_small s req clk key2 hdb ht3 (by omega)]
                exact hpc
            · rw [handle_invalid_type s req clk key2 hdb ht1 ht2 ht3]
              exact hpc

/-- C10: a `TELEMETRY_TX` request for a registered identity is handled identically
whatever the value (or absence) of its session-key field — the handler never reads
it, performs no comparison with any issued session key and no check of prior
authentication — and the telemetry transaction is appended to the pool and
acknowledged: either it stays buffered with `TX_RECEIVED`, or (at the batch
threshold) it is mined into the appended block with `TX_BLOCK_ACK`. -/
theorem telemetry_ignores_session_key (s : LeaderNode) (req : Request) (k : Option String)
    (clk : List Nat) (ht : req.type = "TELEMETRY_TX") (hk : (dbGet req.uav_supi).isSome)
    (hchain : s.chain ≠ []) :
    s.handle_uav_request req clk = s.handle_uav_request { req with session_key := k } clk ∧
    (((stepNode s req clk).transaction_pool =
        s.transaction_pool ++ [telemTxOf req (tickT clk)] ∧
      (∃ x, (s.handle_uav_request req clk).1 = Response.TX_RECEIVED x)) ∨
    ((stepNode s req clk).transaction_pool = [] ∧
      (∃ b, (stepNode s req clk).chain = s.chain ++ [b] ∧
        b.transactions = s.transaction_pool ++ [telemTxOf req (tickT clk)]) ∧
      (∃ h n, (s.handle_uav_request req clk).1 = Response.TX_BLOCK_ACK h n))) := by
  obtain ⟨key, hkey⟩ := Option.isSome_iff_exists.mp hk
  constructor
  · cases req
    rfl
  · by_cases hlen : s.transaction_pool.length + 1 ≥ 3
    · right
      have hbig := handle_telemetry_big s req clk key hkey ht hlen
      unfold stepNode
      rw [hbig, mine_block_nonempty _ _ (by simp)]
      refine ⟨rfl, ⟨_, rfl, ?_⟩, ⟨_, _, rfl⟩⟩
      exact create_block_transactions _ _ _ _ _
    · left
      have hsmall := handle_telemetry_small s req clk key hkey ht (by omega)
      unfold stepNode
      rw [hsmall]
      exact ⟨rfl, _, rfl⟩

theorem telemetry_ignores_session_key_witness :
    demoNode0.handle_uav_request (telemReq "UAV_A1" "w") [9] =
      demoNode0.handle_uav_request
        { telemReq "UAV_A1" "w" with session_key := none } [9] ∧
    (((stepNode demoNode0 (telemReq "UAV_A1" "w") [9]).transaction_pool =
        demoNode0.transaction_pool ++ [telemTxOf (telemReq "UAV_A1" "w") (tickT [9])] ∧
      (∃ x, (demoNode0.handle_uav_request (telemReq "UAV_A1" "w") [9]).1 =
        Response.TX_RECEIVED x)) ∨
    ((stepNode demoNode0 (telemReq "UAV_A1" "w") [9]).transaction_pool = [] ∧
      (∃ b, (stepNode demoNode0 (telemReq "UAV_A1" "w") [9]).chain =
          demoNode0.chain ++ [b] ∧
        b.transactions = demoNode0.transaction_pool ++
          [telemTxOf (telemReq "UAV_A1" "w") (tickT [9])]) ∧
      (∃ h n, (demoNode0.handle_uav_request (telemReq "UAV_A1" "w") [9]).1 =
        Response.TX_BLOCK_ACK h n))) :=
  telemetry_ignores_session_key demoNode0 (telemReq "UAV_A1" "w") none [9] rfl (by decide)
    (by decide)

/-- C6: starting from an empty pool, two `TELEMETRY_TX` requests for a registered
identity are answered `TX_RECEIVED` and append no block; the third is answered
`TX_BLOCK_ACK` and appends exactly one block containing all three telemetry
transactions in arrival order, after which the pool is empty. -/
theorem telemetry_batching (s : LeaderNode) (supi key p1 p2 p3 : String)
    (clk1 clk2 clk3 : List Nat)
    (hk : dbGet supi = some key) (hpool : s.transaction_pool = []) (hchain : s.chain ≠ []) :
    (∃ x, (s.handle_uav_request (telemReq supi p1) clk1).1 = Response.TX_RECEIVED x) ∧
    (stepNode s (telemReq supi p1) clk1).chain = s.chain ∧
    (∃ x, ((stepNode s (telemReq supi p1) clk1).handle_uav_request
      (telemReq supi p2) clk2).1 = Response.TX_RECEIVED x) ∧
    (stepNode (stepNode s (telemReq supi p1) clk1) (telemReq supi p2) clk2).chain = s.chain ∧
    (∃ h n, ((stepNode (stepNode s (telemReq supi p1) clk1) (telemReq supi p2)
        clk2).handle_uav_request (telemReq supi p3) clk3).1 = Response.TX_BLOCK_ACK h n) ∧
    (∃ b, (stepNode (stepNode (stepNode s (telemReq supi p1) clk1) (telemReq supi p2) clk2)
        (telemReq supi p3) clk3).chain = s.chain ++ [b] ∧
      b.transactions = [telemTxOf (telemReq supi p1) (tickT clk1),
        telemTxOf (telemReq supi p2) (tickT clk2),
        telemTxOf (telemReq supi p3) (tickT clk3)]) ∧
    (stepNode (stepNode (stepNode s (telemReq supi p1) clk1) (telemReq supi p2) clk2)
      (telemReq supi p3) clk3).transaction_pool = [] := by
  have e1 := handle_telemetry_small s (telemReq supi p1) clk1 key hk rfl
    (by rw [hpool]; simp)
  have hs1 : stepNode s (telemReq supi p1) clk1 =
      { s with transaction_pool := s.transaction_pool ++
          [telemTxOf (telemReq supi p1) (tickT clk1)] } := by
    unfold stepNode
    rw [e1]
  have e2 := handle_telemetry_small
    { s with transaction_pool := s.transaction_pool ++
        [telemTxOf (telemReq supi p1) (tickT clk1)] }
    (telemReq supi p2) clk2 key hk rfl
    (by rw [hpool]; simp)
  have hs2 : stepNode (stepNode s (telemReq supi p1) clk1) (telemReq supi p2) clk2 =
      { s with transaction_pool := (s.transaction_pool ++
          [telemTxOf (telemReq supi p1) (tickT clk1)]) ++
          [telemTxOf (telemReq supi p2) (tickT clk2)] } := by
    rw [hs1]
    unfold stepNode
    rw [e2]
  have e3 := handle_telemetry_big
    { s with transaction_pool := (s.transaction_pool ++
        [telemTxOf (telemReq supi p1) (tickT clk1)]) ++
        [telemTxOf (telemReq supi p2) (tickT clk2)] }
    (telemReq supi p3) clk3 key hk rfl
    (by rw [hpool]; simp)
  refine ⟨⟨_, by rw [e1]⟩, by rw [hs1], ⟨_, by rw [hs1, e2]⟩, by rw [hs2], ?_, ?_, ?_⟩
  · rw [hs2, e3]
    exact ⟨_, _, rfl⟩
  · rw [hs2]
    unfold stepNode
    rw [e3, mine_block_nonempty _ _ (by simp)]
    refine ⟨_, rfl, ?_⟩
    rw [create_block_transactions, hpool]
    rfl
  · rw [hs2]
    unfold stepNode
    rw [e3, mine_block_nonempty _ _ (by simp)]

theorem telemetry_batching_witness :
    (∃ x, (demoNode0.handle_uav_request (telemReq "UAV_A1" "t1") [2]).1 =
      Response.TX_RECEIVED x) ∧
    demoNode1.chain = demoNode0.chain ∧
    (∃ x, (demoNode1.handle_uav_request (telemReq "UAV_A1" "t2") [3]).1 =
      Response.TX_RECEIVED x) ∧
    demoNode2.chain = demoNode0.chain ∧
    (∃ h n, (demoNode2.handle_uav_request (telemReq "UAV_A1" "t3") [4, 5, 6, 7, 8]).1 =
      Response.TX_BLOCK_ACK h n) ∧
    (∃ b, demoNode3.chain = demoNode0.chain ++ [b] ∧
      b.transactions = [telemTxOf (telemReq "UAV_A1" "t1") (tickT [2]),
        telemTxOf (telemReq "UAV_A1" "t2") (tickT [3]),
        telemTxOf (telemReq "UAV_A1" "t3") (tickT [4, 5, 6, 7, 8])]) ∧
    demoNode3.transaction_pool = [] :=
  telemetry_batching demoNode0 "UAV_A1" "K_LongTerm_A1" "t1" "t2" "t3" [2] [3] [4, 5, 6, 7, 8]
    (by decide) rfl (by decide)

/-- An `AUTH_REQUEST_1` request. -/
def authReq1 (supi : String) : Request :=
  { type := "AUTH_REQUEST_1", uav_supi := supi, res_star := none, data := "",
    session_key := none }

/-- Fresh node after one challenge issuance for `UAV_A1` (millisecond clock 1000,
issuance timestamp 2). -/
def demoAuth1 : LeaderNode := stepNode demoNode0 (authReq1 "UAV_A1") [1000, 2]

/-- The pending challenge stored by that issuance. -/
def demoChal : Challenge :=
  { xres_star := xresOf "K_LongTerm_A1" 1000,
    ktx_sim := calculate_session_key_simulated "K_LongTerm_A1" 1000,
    rand := 1000, timestamp := 2 }

theorem auth_response_correctness_witness :
    ((demoAuth1.handle_uav_request
        (authResp "UAV_A1" (some (xresOf "K_LongTerm_A1" demoChal.rand)))
        [50, 51, 52, 53, 54]).1 =
        Response.AUTH_SUCCESS (calculate_session_key_simulated "K_LongTerm_A1"
          demoChal.rand) ∧
      dictGet (stepNode demoAuth1
        (authResp "UAV_A1" (some (xresOf "K_LongTerm_A1" demoChal.rand)))
        [50, 51, 52, 53, 54]).pending_auth_challenges "UAV_A1" = none ∧
      (∃ b, (stepNode demoAuth1
        (authResp "UAV_A1" (some (xresOf "K_LongTerm_A1" demoChal.rand)))
        [50, 51, 52, 53, 54]).chain = demoAuth1.chain ++ [b])) ∧
    ((demoAuth1.handle_uav_request
        (authResp "UAV_A1" (some (xresOf "K_LongTerm_B2" demoChal.rand))) [60]).1 =
        Response.AUTH_FAILURE "RES* mismatch or no pending challenge" ∧
      stepNode demoAuth1
        (authResp "UAV_A1" (some (xresOf "K_LongTerm_B2" demoChal.rand))) [60] =
        demoAuth1) :=
  ⟨(auth_response_correctness demoAuth1 "UAV_A1" "K_LongTerm_A1" demoChal
      [50, 51, 52, 53, 54] [60] rfl rfl rfl rfl (by decide)).1,
   (auth_response_correctness demoAuth1 "UAV_A1" "K_LongTerm_A1" demoChal
      [50, 51, 52, 53, 54] [60] rfl rfl rfl rfl (by decide)).2
     "K_LongTerm_B2" (by decide)⟩

theorem failed_response_preserves_challenge_witness :
    ((demoAuth1.handle_uav_request (authResp "UAV_A1" (some "deadbeef00")) [70]).1 =
        Response.AUTH_FAILURE "RES* mismatch or no pending challenge" ∧
      stepNode demoAuth1 (authResp "UAV_A1" (some "deadbeef00")) [70] = demoAuth1) ∧
    dictGet (stepNode demoAuth1 (telemReq "UAV_A1" "p")
      [90]).pending_auth_challenges "UAV_A1" = some demoChal :=
  ⟨(failed_response_preserves_challenge demoAuth1 "UAV_A1" "K_LongTerm_A1" "deadbeef00"
      demoChal [70] [71, 72, 73, 74, 75] rfl rfl (by decide) (by decide)).1,
   (failed_response_preserves_challenge demoAuth1 "UAV_A1" "K_LongTerm_A1" "deadbeef00"
      demoChal [70] [71, 72, 73, 74, 75] rfl rfl (by decide) (by decide)).2.2
     (telemReq "UAV_A1" "p") [90] (by decide) (by decide)⟩

theorem is_valid_chain_loop (c : List Block) (h : c ≠ [])
    (hg : (c.getD 0 defaultBlock).previous_hash = "0") :
    is_valid_chain c = checkLoop c (c.length - 1) 1 := by
  unfold is_valid_chain
  rw [List.isEmpty_eq_false.mpr h]
  rw [if_neg (by simp)]
  rw [if_neg (by rw [hg]; simp)]

theorem is_valid_chain_badGenesis (c : List Block) (h : c ≠ [])
    (hg : (c.getD 0 defaultBlock).previous_hash ≠ "0") :
    is_valid_chain c = .badGenesis := by
  unfold is_valid_chain
  rw [List.isEmpty_eq_false.mpr h]
  rw [if_neg (by simp)]
  rw [if_pos hg]

theorem checkLoop_result_cases (c : List Block) (fuel : Nat) :
    ∀ i, checkLoop c fuel i = .pass ∨ (∃ k e a, checkLoop c fuel i = .badLink k e a) ∨
      (∃ k, checkLoop c fuel i = .badChrono k) := by
  induction fuel with
  | zero =>
      intro i
      exact Or.inl rfl
  | succ fuel ih =>
      intro i
      simp only [checkLoop]
      by_cases hl : (c.getD i defaultBlock).previous_hash ≠
          hash_block (c.getD (i - 1) defaultBlock)
      · rw [if_pos hl]
        exact Or.inr (Or.inl ⟨_, _, _, rfl⟩)
      · rw [if_neg hl]
        by_cases hc : (c.getD i defaultBlock).timestamp ≤ (c.getD (i - 1) defaultBlock).timestamp
        · rw [if_pos hc]
          exact Or.inr (Or.inr ⟨_, rfl⟩)
        · rw [if_neg hc]
          exact ih (i + 1)

/-- C7: `is_valid_chain` passes exactly when the chain is nonempty, the genesis
`previous_hash` equals the sentinel `'0'`, and no index `i ≥ 1` has a linkage or
chronology offense; equivalently it fails exactly on an empty chain, a bad genesis
sentinel, some `i ≥ 1` with `previous_hash ≠ hash_block(chain[i-1])`, or some
`i ≥ 1` with `timestamp ≤` the predecessor's.  It fails fast: a reported failure
index offends, no earlier index `≥ 1` offends, a linkage failure is reported before
a chronology failure at the same index and carries the stored (expected) and
recalculated hashes. -/
theorem verifier_exactness (c : List Block) :
    (is_valid_chain c = VerifyResult.pass ↔
      (c ≠ [] ∧ (c.getD 0 defaultBlock).previous_hash = "0" ∧
        ∀ i, 1 ≤ i → i < c.length → ¬ linkBad c i ∧ ¬ chronoBad c i)) ∧
    (is_valid_chain c ≠ VerifyResult.pass ↔
      (c = [] ∨ (c.getD 0 defaultBlock).previous_hash ≠ "0" ∨
        (∃ i, 1 ≤ i ∧ i < c.length ∧ linkBad c i) ∨
        (∃ i, 1 ≤ i ∧ i < c.length ∧ chronoBad c i))) ∧
    (∀ i e a, is_valid_chain c = VerifyResult.badLink i e a →
      1 ≤ i ∧ i < c.length ∧ linkBad c i ∧
        e = (c.getD i defaultBlock).previous_hash ∧
        a = hash_block (c.getD (i - 1) defaultBlock) ∧
        ∀ j, 1 ≤ j → j < i → ¬ linkBad c j ∧ ¬ chronoBad c j) ∧
    (∀ i, is_valid_chain c = VerifyResult.badChrono i →
      1 ≤ i ∧ i < c.length ∧ chronoBad c i ∧ ¬ linkBad c i ∧
        ∀ j, 1 ≤ j → j < i → ¬ linkBad c j ∧ ¬ chronoBad c j) := by
  by_cases hnil : c = []
  · subst hnil
    refine ⟨by simp [is_valid_chain], by simp [is_valid_chain], ?_, ?_⟩
    · intro i e a h
      exact absurd h (by simp [is_valid_chain])
    · intro i h
      exact absurd h (by simp [is_valid_chain])
  · have hlen : 1 ≤ c.length := List.length_pos.mpr hnil
    by_cases hg : (c.getD 0 defaultBlock).previous_hash = "0"
    · have hloop := is_valid_chain_loop c hnil hg
      have harith : 1 + (c.length - 1) = c.length := by omega
      refine ⟨?_, ?_, ?_, ?_⟩
      · rw [hloop, checkLoop_pass_iff]
        constructor
        · intro h
          exact ⟨hnil, hg, fun i h1 h2 => h i h1 (by omega)⟩
        · intro h i h1 h2
          exact h.2.2 i h1 (by omega)
      · rw [hloop]
        constructor
        · intro hne
          rcases checkLoop_result_cases c (c.length - 1) 1 with hp | ⟨k, e, a, hb⟩ | ⟨k, hb⟩
          · exact absurd hp hne
          · obtain ⟨g1, g2, g3, _, _, _⟩ := checkLoop_badLink c (c.length - 1) 1 k e a hb
            exact Or.inr (Or.inr (Or.inl ⟨k, g1, by omega, g3⟩))
          · obtain ⟨g1, g2, g3, _, _⟩ := checkLoop_badChrono c (c.length - 1) 1 k hb
            exact Or.inr (Or.inr (Or.inr ⟨k, g1, by omega, g3⟩))
        · intro hd hp
          rw [checkLoop_pass_iff] at hp
          rcases hd with h | h | ⟨i, h1, h2, h3⟩ | ⟨i, h1, h2, h3⟩
          · exact hnil h
          · exact h hg
          · exact (hp i h1 (by omega)).1 h3
          · exact (hp i h1 (by omega)).2 h3
      · intro i e a h
        rw [hloop] at h
        obtain ⟨g1, g2, g3, g4, g5, g6⟩ := checkLoop_badLink c (c.length - 1) 1 i e a h
        exact ⟨g1, by omega, g3, g4, g5, g6⟩
      · intro i h
        rw [hloop] at h
        obtain ⟨g1, g2, g3, g4, g5⟩ := checkLoop_badChrono c (c.length - 1) 1 i h
        exact ⟨g1, by omega, g3, g4, g5⟩
    · have hbg := is_valid_chain_badGenesis c hnil hg
      refine ⟨?_, ?_, ?_, ?_⟩
      · rw [hbg]
        constructor
        · intro h
          exact absurd h (by simp)
        · intro h
          exact absurd h.2.1 hg
      · rw [hbg]
        constructor
        · intro _
          exact Or.inr (Or.inl hg)
        · intro _ hh
          exact absurd hh (by simp)
      · intro i e a h
        rw [hbg] at h
        exact absurd h (by simp)
      · intro i h
        rw [hbg] at h
        exact absurd h (by simp)

/-- A hand-built two-block chain whose block 1 stores a `previous_hash` that cannot
be the canonical hash of block 0. -/
def cbBlock0 : Block :=
  { index := 0, timestamp := 1, previous_hash := "0", event_log := [],
    transactions := [], current_hash := "h0" }

def cbBlock1 : Block :=
  { index := 1, timestamp := 2, previous_hash := "x", event_log := [],
    transactions := [], current_hash := "h1" }

theorem verifier_exactness_witness :
    1 ≤ 1 ∧ 1 < ([cbBlock0, cbBlock1] : List Block).length ∧
    linkBad [cbBlock0, cbBlock1] 1 ∧
    "x" = (([cbBlock0, cbBlock1] : List Block).getD 1 defaultBlock).previous_hash ∧
    hash_block cbBlock0 =
      hash_block (([cbBlock0, cbBlock1] : List Block).getD (1 - 1) defaultBlock) :=
  ⟨((verifier_exactness [cbBlock0, cbBlock1]).2.2.1 1 "x" (hash_block cbBlock0)
      (by decide)).1,
   ((verifier_exactness [cbBlock0, cbBlock1]).2.2.1 1 "x" (hash_block cbBlock0)
      (by decide)).2.1,
   ((verifier_exactness [cbBlock0, cbBlock1]).2.2.1 1 "x" (hash_block cbBlock0)
      (by decide)).2.2.1,
   ((verifier_exactness [cbBlock0, cbBlock1]).2.2.1 1 "x" (hash_block cbBlock0)
      (by decide)).2.2.2.1,
   ((verifier_exactness [cbBlock0, cbBlock1]).2.2.1 1 "x" (hash_block cbBlock0)
      (by decide)).2.2.2.2.1⟩

end EPOH
